import Mathlib

/-!
Verification of the bookworm-frontend client against its design notes.

The definitions below are shallow embeddings of the TypeScript source:
  * `src/types/index.ts`      — the record types mirrored from the API
  * `src/lib/api.ts`          — the generic `fetchAPI` wrapper
  * `src/pages/Cart.tsx`      — cart state, quantity updates, Bakong polling
  * `src/pages/Checkout.tsx`  — the manual-payment checkout flow
  * `src/contexts/CartContext.tsx` — the cart-count badge refresh

JavaScript numbers are modelled as `ℚ` (prices, amounts) and `ℤ`
(quantities, stock); network calls are made explicit by passing the
response of each request as an argument, and the list of requests an
operation issues is returned alongside its state updates.
-/

/-- Record `Book` from src/types/index.ts. -/
structure Book where
  bookID : Nat
  title : String
  author : String
  published_date : String
  stock : ℤ
  category : String
  price : ℚ
  description : String
  imageURL : String
  deriving Repr, DecidableEq

/-- Record `User` from src/types/index.ts (password is optional). -/
structure User where
  id : Nat
  name : String
  email : String
  password : Option String
  role : String
  createdAt : String
  deriving Repr, DecidableEq

/-- Record `CartItem` from src/types/index.ts. -/
structure CartItem where
  id : Nat
  userId : Nat
  bookId : Nat
  quantity : ℤ
  createdAt : String
  deriving Repr, DecidableEq

/-- Type `CartItemWithBook` from Cart.tsx / Checkout.tsx: a cart item whose
book lookup may have failed, in which case `book` is absent. -/
structure CartItemWithBook extends CartItem where
  book : Option Book
  deriving Repr, DecidableEq

/-- Record `Order` from src/types/index.ts. -/
structure Order where
  id : Nat
  userId : Nat
  totalAmount : ℚ
  status : String
  paymentMethod : String
  paymentStatus : String
  shippingAddress : String
  createdAt : String
  deriving Repr, DecidableEq

/-- The body of `ordersAPI.create` as built in Checkout.tsx lines 69-76
and Cart.tsx lines 351-358. -/
structure OrderCreate where
  userId : Nat
  totalAmount : ℚ
  status : String
  paymentMethod : String
  paymentStatus : String
  shippingAddress : String
  deriving Repr, DecidableEq

/-- The body of `paymentsAPI.create` as built in Checkout.tsx lines 77-82. -/
structure PaymentCreate where
  orderId : Nat
  amount : ℚ
  paymentMethod : String
  paymentStatus : String
  deriving Repr, DecidableEq

/-- The body of `cartAPI.update` as built in Cart.tsx lines 258-262. -/
structure UpdateReq where
  userId : Nat
  bookId : Nat
  quantity : ℤ
  deriving Repr, DecidableEq

/-- A toast notification: its title and whether it used the
`destructive` variant. -/
structure Toast where
  title : String
  destructive : Bool
  deriving Repr, DecidableEq

/-- One HTTP request issued by a client operation, identified by
endpoint and payload. -/
inductive ApiCall where
  | getCartItems (userId : Nat)
  | getBook (bookId : Nat)
  | createOrder (req : OrderCreate)
  | createPayment (req : PaymentCreate)
  | deleteCartItem (id : Nat)
  | updateCartItem (id : Nat) (req : UpdateReq)
  deriving Repr, DecidableEq

/-- Function `calculateTotal` from Cart.tsx lines 466-470 and Checkout.tsx
lines 60-61: `cartItems.reduce((total, item) => total +
(item.book?.price || 0) * item.quantity, 0)`. -/
def calculateTotal (cartItems : List CartItemWithBook) : ℚ :=
  cartItems.foldl
    (fun total item =>
      total + (match item.book with
               | some b => b.price
               | none => 0) * item.quantity)
    0

/-- The amount a single cart item contributes to the total: price times
quantity when its book record is loaded, `0` when the lookup failed. -/
def itemContribution (item : CartItemWithBook) : ℚ :=
  match item.book with
  | some b => b.price * item.quantity
  | none => 0

theorem foldl_add_contribution (l : List CartItemWithBook) :
    ∀ a : ℚ,
      l.foldl (fun total item => total + itemContribution item) a
        = a + (l.map itemContribution).sum := by
  induction l with
  | nil => intro a; simp
  | cons hd tl ih =>
      intro a
      simp only [List.foldl_cons, List.map_cons, List.sum_cons]
      rw [ih]
      ring

theorem calculateTotal_eq_sum (cartItems : List CartItemWithBook) :
    calculateTotal cartItems = (cartItems.map itemContribution).sum := by
  have hfun :
      (fun (total : ℚ) (item : CartItemWithBook) =>
        total + (match item.book with
                 | some b => b.price
                 | none => (0 : ℚ)) * (item.quantity : ℚ))
      = fun total item => total + itemContribution item := by
    funext total item
    cases hb : item.book <;> simp [itemContribution, hb]
  unfold calculateTotal
  rw [hfun, foldl_add_contribution, zero_add]

/-- C8: for every list of cart items, `calculateTotal` is the sum over
the items of quantity times book price, where an item whose book record
is absent contributes `0`; equivalently, it is the sum over only those
items whose book is loaded, so the computed total omits the price of
every item whose book failed to load. -/
theorem calculateTotal_sum_loaded (cartItems : List CartItemWithBook) :
    calculateTotal cartItems = (cartItems.map itemContribution).sum ∧
    calculateTotal cartItems
      = ((cartItems.filter (fun i => i.book.isSome)).map itemContribution).sum ∧
    ∀ item ∈ cartItems, item.book = none → itemContribution item = 0 := by
  have h1 := calculateTotal_eq_sum cartItems
  have h2 : ∀ l : List CartItemWithBook,
      (l.map itemContribution).sum
        = ((l.filter (fun i => i.book.isSome)).map itemContribution).sum := by
    intro l
    induction l with
    | nil => simp
    | cons hd tl ih =>
        cases hb : hd.book with
        | none => simp [List.filter_cons, hb, itemContribution, ih]
        | some b => simp [List.filter_cons, hb, ih]
  refine ⟨h1, h1.trans (h2 cartItems), ?_⟩
  intro item _ hnone
  unfold itemContribution
  rw [hnone]

/-- The result of `Except`-valued API call used to branch on success,
mirroring whether an awaited promise resolved or rejected. -/
def resultOk {α : Type} (e : Except String α) : Bool :=
  match e with
  | .ok _ => true
  | .error _ => false

/-- The order-creation body built by `handleCheckout` in Checkout.tsx
lines 69-76 (and identically by `handlePaymentMethodSubmit` in Cart.tsx
lines 351-358): userId, client-computed total, status PENDING, the
chosen payment method, paymentStatus PENDING, and the shipping
address. -/
def checkoutOrderReq (u : User) (cartItems : List CartItemWithBook)
    (paymentMethod shippingAddress : String) : OrderCreate :=
  { userId := u.id
    totalAmount := calculateTotal cartItems
    status := "PENDING"
    paymentMethod := paymentMethod
    paymentStatus := "PENDING"
    shippingAddress := shippingAddress }

/-- Responses of the remote API during one run of `handleCheckout`:
the result of `ordersAPI.create`, of `paymentsAPI.create`, and of each
`cartAPI.delete`. -/
structure CheckoutOracle where
  createOrder : OrderCreate → Except String Order
  createPayment : PaymentCreate → Except String Unit
  deleteItem : Nat → Except String Unit

/-- What one run of `handleCheckout` did: the API calls it issued in
order, the toasts it showed, and whether it navigated to /orders. -/
structure CheckoutResult where
  calls : List ApiCall
  toasts : List Toast
  navigated : Bool
  deriving Repr, DecidableEq

/-- Function `handleCheckout` from Checkout.tsx lines 63-98: guard on user and
non-empty cart, create the order, create the payment record, then
delete all cart items via `Promise.all`; the surrounding try/catch
stops at the first rejected await and shows a destructive toast. Toast
titles are the i18n keys used by the source. -/
def handleCheckout (user : Option User) (cartItems : List CartItemWithBook)
    (shippingAddress paymentMethod : String) (o : CheckoutOracle) : CheckoutResult :=
  match user with
  | none => ⟨[], [], false⟩
  | some u =>
    if cartItems.length = 0 then ⟨[], [], false⟩
    else
      let totalAmount := calculateTotal cartItems
      let orderReq := checkoutOrderReq u cartItems paymentMethod shippingAddress
      match o.createOrder orderReq with
      | .error _ => ⟨[.createOrder orderReq], [⟨"checkout.place_order", true⟩], false⟩
      | .ok order =>
        let payReq : PaymentCreate :=
          { orderId := order.id
            amount := totalAmount
            paymentMethod := paymentMethod
            paymentStatus := "COMPLETED" }
        match o.createPayment payReq with
        | .error _ =>
            ⟨[.createOrder orderReq, .createPayment payReq],
             [⟨"checkout.place_order", true⟩], false⟩
        | .ok _ =>
            let deleteCalls := cartItems.map (fun i => ApiCall.deleteCartItem i.id)
            if cartItems.all (fun i => resultOk (o.deleteItem i.id)) then
              ⟨[.createOrder orderReq, .createPayment payReq] ++ deleteCalls,
               [⟨"checkout.place_order", false⟩], true⟩
            else
              ⟨[.createOrder orderReq, .createPayment payReq] ++ deleteCalls,
               [⟨"checkout.place_order", true⟩], false⟩

/-- Concrete data used to instantiate the theorems below. -/
def sampleBook1 : Book :=
  ⟨1, "Dune", "Frank Herbert", "1965-08-01", 5, "SciFi", 10, "", ""⟩

def sampleBook2 : Book :=
  ⟨2, "Emma", "Jane Austen", "1815-12-23", 3, "Classic", 25 / 2, "", ""⟩

def sampleUser : User :=
  ⟨7, "Ada", "ada@example.com", none, "USER", "2024-01-01"⟩

def sampleItem1 : CartItemWithBook := ⟨⟨11, 7, 1, 2, ""⟩, some sampleBook1⟩

def sampleItem2 : CartItemWithBook := ⟨⟨12, 7, 2, 1, ""⟩, some sampleBook2⟩

def sampleItemNoBook : CartItemWithBook := ⟨⟨13, 7, 9, 4, ""⟩, none⟩

/-- An oracle on which every API call succeeds; the created order
echoes the request under a fresh id. -/
def sampleOracle : CheckoutOracle where
  createOrder := fun req =>
    .ok ⟨42, req.userId, req.totalAmount, req.status, req.paymentMethod,
         req.paymentStatus, req.shippingAddress, ""⟩
  createPayment := fun _ => .ok ()
  deleteItem := fun _ => .ok ()

/-- C2, counterexample: the totalAmount the client puts into the
order-creation request varies with the client-side cart contents and
equals the client-computed `calculateTotal`, so the order total is not
obtained from a server-owned endpoint. -/
theorem total_client_computed_counterexample :
    (checkoutOrderReq sampleUser [sampleItem1] "CREDIT_CARD" "addr").totalAmount
      ≠ (checkoutOrderReq sampleUser [sampleItem2] "CREDIT_CARD" "addr").totalAmount ∧
    (checkoutOrderReq sampleUser [sampleItem1] "CREDIT_CARD" "addr").totalAmount
      = calculateTotal [sampleItem1] ∧
    calculateTotal [sampleItem1] = 20 := by
  have h1 : calculateTotal [sampleItem1] = 20 := by
    rw [calculateTotal_eq_sum]
    simp [itemContribution, sampleItem1, sampleBook1]
    norm_num
  have h2 : calculateTotal [sampleItem2] = 25 / 2 := by
    rw [calculateTotal_eq_sum]
    simp [itemContribution, sampleItem2, sampleBook2]
  refine ⟨?_, rfl, h1⟩
  show calculateTotal [sampleItem1] ≠ calculateTotal [sampleItem2]
  rw [h1, h2]
  norm_num

/-- C2, amended: for every checkout with a logged-in user and a
non-empty cart, the first API call is the order creation whose
totalAmount is computed client-side by `calculateTotal` from the cart
contents and sent to the server. -/
theorem total_client_computed_amended (u : User) (cartItems : List CartItemWithBook)
    (shippingAddress paymentMethod : String) (o : CheckoutOracle)
    (hne : cartItems.length ≠ 0) :
    (handleCheckout (some u) cartItems shippingAddress paymentMethod o).calls.head?
      = some (.createOrder (checkoutOrderReq u cartItems paymentMethod shippingAddress)) ∧
    (checkoutOrderReq u cartItems paymentMethod shippingAddress).totalAmount
      = calculateTotal cartItems := by
  refine ⟨?_, rfl⟩
  simp only [handleCheckout, if_neg hne]
  rcases h1 : o.createOrder (checkoutOrderReq u cartItems paymentMethod shippingAddress) with e | order
  · simp [h1]
  · simp only [h1]
    rcases h2 : o.createPayment
        { orderId := order.id
          amount := calculateTotal cartItems
          paymentMethod := paymentMethod
          paymentStatus := "COMPLETED" } with e | x
    · simp [h2]
    · simp only [h2]
      cases hall : cartItems.all (fun i => resultOk (o.deleteItem i.id)) <;>
        simp [hall]

/-- C2, witness for `total_client_computed_amended` at concrete data. -/
theorem total_client_computed_amended_witness :
    ([sampleItem1, sampleItem2].length ≠ 0) ∧
    (handleCheckout (some sampleUser) [sampleItem1, sampleItem2] "addr" "CREDIT_CARD"
        sampleOracle).calls.head?
      = some (.createOrder (checkoutOrderReq sampleUser [sampleItem1, sampleItem2]
          "CREDIT_CARD" "addr")) :=
  ⟨by decide,
   (total_client_computed_amended sampleUser [sampleItem1, sampleItem2]
     "addr" "CREDIT_CARD" sampleOracle (by decide)).1⟩

/-- C5: in the manual-payment checkout flow with a logged-in user and a
non-empty cart, `handleCheckout` first creates the order (status
PENDING, paymentStatus PENDING, client-computed total), then creates a
payment record for that order's id and the same amount with
paymentStatus COMPLETED, then deletes every cart item; if the order
creation or the payment creation fails, the subsequent calls are not
issued. -/
theorem manual_checkout_sequence (u : User) (cartItems : List CartItemWithBook)
    (shippingAddress paymentMethod : String) (o : CheckoutOracle)
    (hne : cartItems.length ≠ 0) :
    (checkoutOrderReq u cartItems paymentMethod shippingAddress).status = "PENDING" ∧
    (checkoutOrderReq u cartItems paymentMethod shippingAddress).paymentStatus = "PENDING" ∧
    (checkoutOrderReq u cartItems paymentMethod shippingAddress).totalAmount
      = calculateTotal cartItems ∧
    (∀ e, o.createOrder (checkoutOrderReq u cartItems paymentMethod shippingAddress)
        = .error e →
      (handleCheckout (some u) cartItems shippingAddress paymentMethod o).calls
        = [.createOrder (checkoutOrderReq u cartItems paymentMethod shippingAddress)]) ∧
    (∀ order, o.createOrder (checkoutOrderReq u cartItems paymentMethod shippingAddress)
        = .ok order →
      (∀ e, o.createPayment
          ⟨order.id, calculateTotal cartItems, paymentMethod, "COMPLETED"⟩ = .error e →
        (handleCheckout (some u) cartItems shippingAddress paymentMethod o).calls
          = [.createOrder (checkoutOrderReq u cartItems paymentMethod shippingAddress),
             .createPayment ⟨order.id, calculateTotal cartItems, paymentMethod, "COMPLETED"⟩]) ∧
      (∀ x, o.createPayment
          ⟨order.id, calculateTotal cartItems, paymentMethod, "COMPLETED"⟩ = .ok x →
        (handleCheckout (some u) cartItems shippingAddress paymentMethod o).calls
          = [.createOrder (checkoutOrderReq u cartItems paymentMethod shippingAddress),
             .createPayment ⟨order.id, calculateTotal cartItems, paymentMethod, "COMPLETED"⟩]
            ++ cartItems.map (fun i => ApiCall.deleteCartItem i.id))) := by
  have hne' : cartItems ≠ [] := by
    intro h; exact hne (by rw [h]; rfl)
  refine ⟨rfl, rfl, rfl, ?_, ?_⟩
  · intro e he
    simp [handleCheckout, if_neg hne, hne', he]
  · intro order horder
    constructor
    · intro e he
      simp [handleCheckout, if_neg hne, hne', horder, he]
    · intro x hx
      simp only [handleCheckout, if_neg hne, horder, hx]
      cases hall : cartItems.all (fun i => resultOk (o.deleteItem i.id)) <;>
        simp [hall, hne']

/-- C5, witness for `manual_checkout_sequence` at concrete data: the
all-success oracle on a two-item cart, checking the full call trace. -/
theorem manual_checkout_sequence_witness :
    (handleCheckout (some sampleUser) [sampleItem1, sampleItem2] "addr" "CREDIT_CARD"
        sampleOracle).calls
      = [.createOrder (checkoutOrderReq sampleUser [sampleItem1, sampleItem2]
            "CREDIT_CARD" "addr"),
         .createPayment ⟨42, calculateTotal [sampleItem1, sampleItem2],
            "CREDIT_CARD", "COMPLETED"⟩,
         .deleteCartItem 11, .deleteCartItem 12] := by
  have h := (manual_checkout_sequence sampleUser [sampleItem1, sampleItem2]
    "addr" "CREDIT_CARD" sampleOracle (by decide)).2.2.2.2
    ⟨42, sampleUser.id, calculateTotal [sampleItem1, sampleItem2], "PENDING",
      "CREDIT_CARD", "PENDING", "addr", ""⟩ rfl
  exact h.2 () rfl

/-- What one call of `updateQuantity` did: the API calls it issued, the
resulting `cartItems` state, and the toasts it showed. -/
structure UpdateQuantityResult where
  calls : List ApiCall
  cartItems : List CartItemWithBook
  toasts : List Toast
  deriving Repr, DecidableEq

/-- Function `updateQuantity` from Cart.tsx lines 233-280: silently return when
the new quantity is below 1 or the item or user is missing; reject with
an "Insufficient stock" toast when the item's book is loaded and the
new quantity exceeds its stock; otherwise send `cartAPI.update` and, on
success, map the new quantity over the matching items. `apiOk` is
whether the awaited `cartAPI.update` resolved. -/
def updateQuantity (user : Option User) (cartItems : List CartItemWithBook)
    (itemId : Nat) (newQuantity : ℤ) (apiOk : Bool) : UpdateQuantityResult :=
  if newQuantity < 1 then ⟨[], cartItems, []⟩
  else
    match cartItems.find? (fun i => i.id == itemId) with
    | none => ⟨[], cartItems, []⟩
    | some item =>
      match user with
      | none => ⟨[], cartItems, []⟩
      | some u =>
        if (match item.book with
            | some b => decide (b.stock < newQuantity)
            | none => false) then
          ⟨[], cartItems, [⟨"Insufficient stock", true⟩]⟩
        else
          let req : UpdateReq := ⟨u.id, item.bookId, newQuantity⟩
          if apiOk then
            ⟨[.updateCartItem itemId req],
             cartItems.map (fun i =>
               if i.id == itemId then { i with quantity := newQuantity } else i),
             [⟨"Quantity updated", false⟩]⟩
          else
            ⟨[.updateCartItem itemId req], cartItems, [⟨"Error updating quantity", true⟩]⟩

/-- C3, counterexample: the client does not forward every requested
cart-quantity update. With a logged-in user and the item present, a
requested quantity of 0 is rejected client-side with no API call, and a
requested quantity of 6 against a stock of 5 is rejected client-side
with an "Insufficient stock" toast and no API call. -/
theorem no_client_validation_counterexample :
    ¬ (∀ q : ℤ, (updateQuantity (some sampleUser) [sampleItem1] 11 q true).calls ≠ []) ∧
    (updateQuantity (some sampleUser) [sampleItem1] 11 0 true).calls = [] ∧
    (updateQuantity (some sampleUser) [sampleItem1] 11 6 true).calls = [] ∧
    (updateQuantity (some sampleUser) [sampleItem1] 11 6 true).toasts
      = [⟨"Insufficient stock", true⟩] := by
  refine ⟨fun h => h 0 ?_, ?_, ?_, ?_⟩ <;> decide

/-- C3, amended: `updateQuantity` does enforce two client-owned checks
— a quantity lower bound of 1 and, when the item's book record is
loaded, the book's stock as an upper bound — and only a request passing
both is forwarded to the remote API, as a `cartAPI.update` with the
user's id, the item's bookId and the new quantity. -/
theorem client_validation_amended (u : User) (cartItems : List CartItemWithBook)
    (itemId : Nat) (newQuantity : ℤ) (apiOk : Bool) (item : CartItemWithBook)
    (hfind : cartItems.find? (fun i => i.id == itemId) = some item)
    (hlow : 1 ≤ newQuantity)
    (hstock : ∀ b, item.book = some b → newQuantity ≤ b.stock) :
    (updateQuantity (some u) cartItems itemId newQuantity apiOk).calls
      = [.updateCartItem itemId ⟨u.id, item.bookId, newQuantity⟩] := by
  have hq : ¬ newQuantity < 1 := not_lt.mpr hlow
  have hguard : (match item.book with
      | some b => decide (b.stock < newQuantity)
      | none => false) = false := by
    cases hb : item.book with
    | none => rfl
    | some b =>
        simp only [decide_eq_false_iff_not, not_lt]
        exact hstock b hb
  simp only [updateQuantity, if_neg hq, hfind, hguard]
  cases apiOk <;> simp

/-- C3, witness for `client_validation_amended`: quantity 3 on an item
with stock 5 is forwarded. -/
theorem client_validation_amended_witness :
    (updateQuantity (some sampleUser) [sampleItem1] 11 3 true).calls
      = [.updateCartItem 11 ⟨7, 1, 3⟩] :=
  client_validation_amended sampleUser [sampleItem1] 11 3 true sampleItem1
    (by decide) (by decide) (by intro b hb; cases hb; decide)

/-- C9: for every call of `updateQuantity` where the requested quantity
is below 1, or the found item's book is loaded and the requested
quantity exceeds the book's stock, no API request is sent and the
`cartItems` state is left unchanged — so the client-held invariant
1 ≤ quantity ≤ stock for items with a loaded book is never broken by
such a call. -/
theorem updateQuantity_guard (user : Option User) (cartItems : List CartItemWithBook)
    (itemId : Nat) (newQuantity : ℤ) (apiOk : Bool)
    (h : newQuantity < 1 ∨
      ∃ item b, cartItems.find? (fun i => i.id == itemId) = some item ∧
        item.book = some b ∧ b.stock < newQuantity) :
    (updateQuantity user cartItems itemId newQuantity apiOk).calls = [] ∧
    (updateQuantity user cartItems itemId newQuantity apiOk).cartItems = cartItems := by
  by_cases hq : newQuantity < 1
  · simp [updateQuantity, if_pos hq]
  · rcases h with hq' | ⟨item, b, hfind, hbook, hstock⟩
    · exact absurd hq' hq
    · have hguard : (match item.book with
          | some b => decide (b.stock < newQuantity)
          | none => false) = true := by
        rw [hbook]
        exact decide_eq_true hstock
      rcases user with _ | u
      · simp [updateQuantity, if_neg hq, hfind]
      · simp [updateQuantity, if_neg hq, hfind, hguard]

/-- C9, witness for `updateQuantity_guard`: quantity 6 against stock 5
is rejected with the state unchanged. -/
theorem updateQuantity_guard_witness :
    (updateQuantity (some sampleUser) [sampleItem1] 11 6 false).calls = [] ∧
    (updateQuantity (some sampleUser) [sampleItem1] 11 6 false).cartItems
      = [sampleItem1] :=
  updateQuantity_guard (some sampleUser) [sampleItem1] 11 6 false
    (Or.inr ⟨sampleItem1, sampleBook1, by decide, rfl, by decide⟩)

/-- Constant `maxAttempts` from Cart.tsx line 92: the hard-coded attempt
ceiling of the payment polling loop. -/
def maxAttempts : Nat := 60

/-- The interval passed to `setInterval` in Cart.tsx line 177, in
milliseconds. -/
def pollIntervalMs : Nat := 3000

/-- What one invocation of `checkPaymentStatus` observed from the
verify-payment request: a non-ok HTTP response, a parsed status body,
or a thrown error (network failure or JSON failure). -/
inductive PollOutcome where
  | httpError (status : Nat)
  | statusResp (paymentStatus orderStatus : String) (message : Option String)
  | netError
  deriving Repr, DecidableEq

/-- The state of one run of the Bakong polling effect (Cart.tsx lines
83-186): the closure variable `attempts`, whether `clearInterval` has
been called on `pollInterval`, and the `isPollingPayment` /
`paymentStatusMessage` React state. -/
structure PollState where
  attempts : Nat
  cleared : Bool
  isPollingPayment : Bool
  paymentStatusMessage : String
  deriving Repr, DecidableEq

/-- The state just after the effect starts polling (Cart.tsx lines
88-92). -/
def initialPollState : PollState :=
  { attempts := 0
    cleared := false
    isPollingPayment := true
    paymentStatusMessage := "Waiting for payment..." }

/-- Function `checkPaymentStatus` from Cart.tsx lines 94-171: increment
`attempts`; return early on a non-ok response; clear the interval on
COMPLETED/PAID or FAILED; otherwise clear with a timeout toast once
`attempts >= maxAttempts`; in the catch branch, clear with a
verification-error toast once `attempts >= maxAttempts`. -/
def checkPaymentStatus (s : PollState) (outcome : PollOutcome) : PollState × List Toast :=
  let attempts := s.attempts + 1
  match outcome with
  | .httpError _ => ({ s with attempts := attempts }, [])
  | .statusResp ps os _ =>
      if ps = "COMPLETED" ∧ os = "PAID" then
        (⟨attempts, true, false, "Payment confirmed!"⟩,
         [⟨"Payment Successful!", false⟩])
      else if ps = "FAILED" then
        (⟨attempts, true, false, "Payment failed. Please try again."⟩,
         [⟨"Payment Failed", true⟩])
      else if maxAttempts ≤ attempts then
        (⟨attempts, true, false, "Timeout. Please check your order status."⟩,
         [⟨"Verification Timeout", true⟩])
      else
        ({ s with
            attempts := attempts
            paymentStatusMessage :=
              "Waiting for payment... (" ++ toString attempts ++ "/"
                ++ toString maxAttempts ++ ")" }, [])
  | .netError =>
      if maxAttempts ≤ attempts then
        (⟨attempts, true, false, "Unable to verify payment."⟩,
         [⟨"Verification Error", true⟩])
      else
        ({ s with attempts := attempts }, [])

/-- A run of the polling loop: each element of the list is the outcome
of one timer tick's status check; once the interval has been cleared,
ticks no longer invoke `checkPaymentStatus`. Returns the final state
and every toast shown. -/
def runPoll : PollState → List PollOutcome → PollState × List Toast
  | s, [] => (s, [])
  | s, o :: os =>
      if s.cleared then (s, [])
      else
        let step := checkPaymentStatus s o
        let rest := runPoll step.1 os
        (rest.1, step.2 ++ rest.2)

/-- The effect cleanup from Cart.tsx lines 180-185, run on component
teardown: its only action is `clearInterval(pollInterval)`. -/
def cleanupPolling (s : PollState) : PollState :=
  { s with cleared := true }

/-- C1, counterexample: on the execution path where every
verify-payment response is a non-ok HTTP response, `checkPaymentStatus`
returns before consulting the attempt ceiling, so after 61 attempts —
one more than `maxAttempts` — the interval has not been cleared,
polling has not stopped, and no timeout notification was shown. -/
theorem poll_ceiling_counterexample :
    (runPoll initialPollState
        (List.replicate (maxAttempts + 1) (PollOutcome.httpError 500))).1.attempts
      = maxAttempts + 1 ∧
    (runPoll initialPollState
        (List.replicate (maxAttempts + 1) (PollOutcome.httpError 500))).1.cleared
      = false ∧
    (runPoll initialPollState
        (List.replicate (maxAttempts + 1) (PollOutcome.httpError 500))).1.isPollingPayment
      = true ∧
    (runPoll initialPollState
        (List.replicate (maxAttempts + 1) (PollOutcome.httpError 500))).2 = [] := by
  refine ⟨?_, ?_, ?_, ?_⟩ <;> decide

/-- C1, amended: payment-status checks run on a single fixed-interval
timer (3000 ms) with the hard-coded ceiling `maxAttempts = 60`, and the
ceiling is enforced on every attempt that receives a parsed status or
throws: on any attempt numbered ≥ 60 whose parsed status is neither
COMPLETED/PAID nor FAILED the interval is cleared and polling stops
with a "Verification Timeout" notification, and on any attempt ≥ 60
that throws it is cleared with a "Verification Error" notification;
once cleared, no further check runs. However, an attempt whose HTTP
response is not ok returns early without consulting the ceiling, so it
never clears the interval. -/
theorem poll_ceiling_amended :
    (pollIntervalMs = 3000 ∧ maxAttempts = 60) ∧
    (∀ (s : PollState) (ps os : String) (msg : Option String),
      ¬ (ps = "COMPLETED" ∧ os = "PAID") → ps ≠ "FAILED" →
      maxAttempts ≤ s.attempts + 1 →
      checkPaymentStatus s (.statusResp ps os msg)
        = (⟨s.attempts + 1, true, false, "Timeout. Please check your order status."⟩,
           [⟨"Verification Timeout", true⟩])) ∧
    (∀ s : PollState, maxAttempts ≤ s.attempts + 1 →
      checkPaymentStatus s .netError
        = (⟨s.attempts + 1, true, false, "Unable to verify payment."⟩,
           [⟨"Verification Error", true⟩])) ∧
    (∀ (s : PollState) (outcomes : List PollOutcome),
      s.cleared = true → runPoll s outcomes = (s, [])) ∧
    (∀ (s : PollState) (status : Nat),
      (checkPaymentStatus s (.httpError status)).1.cleared = s.cleared ∧
      (checkPaymentStatus s (.httpError status)).2 = []) := by
  refine ⟨⟨rfl, rfl⟩, ?_, ?_, ?_, ?_⟩
  · intro s ps os msg hnotPaid hnotFailed hceil
    simp [checkPaymentStatus, hnotPaid, hnotFailed, hceil]
  · intro s hceil
    simp [checkPaymentStatus, hceil]
  · intro s outcomes hc
    cases outcomes with
    | nil => rfl
    | cons o os => simp [runPoll, hc]
  · intro s status
    exact ⟨rfl, rfl⟩

/-- C1, witness for `poll_ceiling_amended`: a still-pending status on
attempt 60 clears the interval with the timeout notification. -/
theorem poll_ceiling_amended_witness :
    checkPaymentStatus ⟨59, false, true, "Waiting for payment..."⟩
        (.statusResp "PENDING" "PENDING" none)
      = (⟨60, true, false, "Timeout. Please check your order status."⟩,
         [⟨"Verification Timeout", true⟩]) :=
  poll_ceiling_amended.2.1 ⟨59, false, true, "Waiting for payment..."⟩
    "PENDING" "PENDING" none (by decide) (by decide) (by decide)

/-- C6: the effect cleanup run on component teardown only clears the
polling timer (attempts, polling flag and message are untouched), and
once it has run, no status-check attempt ever executes again and no
toast ever fires: every subsequent run of the loop leaves the state
exactly as the cleanup left it. -/
theorem no_check_after_cleanup (s : PollState) :
    (cleanupPolling s).cleared = true ∧
    (cleanupPolling s).attempts = s.attempts ∧
    (cleanupPolling s).isPollingPayment = s.isPollingPayment ∧
    (cleanupPolling s).paymentStatusMessage = s.paymentStatusMessage ∧
    ∀ outcomes : List PollOutcome,
      runPoll (cleanupPolling s) outcomes = (cleanupPolling s, []) := by
  refine ⟨rfl, rfl, rfl, rfl, ?_⟩
  intro outcomes
  cases outcomes with
  | nil => rfl
  | cons o os => simp [runPoll, cleanupPolling]

/-- What one call of `updateCartCount` (CartContext.tsx lines 18-31)
did: the API calls it issued, the new cart count if `setCartCount` was
called, and the toasts it showed. -/
structure CartCountResult where
  calls : List ApiCall
  newCount : Option ℤ
  toasts : List Toast
  deriving Repr, DecidableEq

/-- Function `updateCartCount` from CartContext.tsx lines 18-31: with no user
the count is reset to 0 without a request; otherwise
`cartAPI.getByUserId` is issued once and, on success, the count becomes
the sum of the quantities; on failure the error is only logged with
`console.error` — the count is left unchanged and no toast is shown. -/
def updateCartCount (user : Option User)
    (apiResult : Except String (List CartItem)) : CartCountResult :=
  match user with
  | none => ⟨[], some 0, []⟩
  | some u =>
      match apiResult with
      | .ok items =>
          ⟨[.getCartItems u.id],
           some (items.foldl (fun sum item => sum + item.quantity) 0), []⟩
      | .error _ => ⟨[.getCartItems u.id], none, []⟩

/-- What one call of `loadCart` (Cart.tsx lines 188-231) did: the API
calls it issued, the `cartItems` state if set, the toasts shown, and
the final `isLoading` flag. -/
structure LoadCartResult where
  calls : List ApiCall
  newCartItems : Option (List CartItemWithBook)
  toasts : List Toast
  isLoading : Bool
  deriving Repr, DecidableEq

/-- Function `loadCart` from Cart.tsx lines 188-231: return early with no user;
fetch the cart items, then a book for each item (an item whose book
fetch rejects is kept without its book, silently); enrich the loaded
books with Open Library covers (`enrich` is the effect of
`openLibraryAPI.enrichBooksWithCovers`) and map them back by bookID;
a top-level failure is surfaced as a destructive "Error loading cart"
toast; `finally` clears `isLoading`. -/
def loadCart (user : Option User) (cartResult : Except String (List CartItem))
    (bookResult : Nat → Except String Book)
    (enrich : List Book → List Book) : LoadCartResult :=
  match user with
  | none => ⟨[], none, [], true⟩
  | some u =>
      match cartResult with
      | .error _ =>
          ⟨[.getCartItems u.id], none, [⟨"Error loading cart", true⟩], false⟩
      | .ok items =>
          let itemsWithBooks : List CartItemWithBook :=
            items.map (fun item =>
              match bookResult item.bookId with
              | .ok book => { toCartItem := item, book := some book }
              | .error _ => { toCartItem := item, book := none })
          let books := itemsWithBooks.filterMap (fun item => item.book)
          let enrichedBooks := enrich books
          let enrichedCartItems : List CartItemWithBook :=
            itemsWithBooks.map (fun item =>
              match item.book with
              | some b =>
                  { item with
                      book := some ((enrichedBooks.find?
                        (fun eb => eb.bookID == b.bookID)).getD b) }
              | none => item)
          ⟨.getCartItems u.id :: items.map (fun item => .getBook item.bookId),
           some enrichedCartItems, [], false⟩

/-- C4, counterexample: a failed API request that is swallowed without
a toast. When `cartAPI.getByUserId` fails inside `updateCartCount`, the
request was issued but the error is only logged: no toast is shown. -/
theorem toast_on_failure_counterexample :
    ¬ (∀ e : String,
        (updateCartCount (some sampleUser) (.error e)).calls ≠ [] →
        (updateCartCount (some sampleUser) (.error e)).toasts ≠ []) ∧
    (updateCartCount (some sampleUser) (.error "Network error")).calls
      = [.getCartItems 7] ∧
    (updateCartCount (some sampleUser) (.error "Network error")).toasts = [] := by
  refine ⟨fun h => h "Network error" ?_ ?_, ?_, ?_⟩ <;> decide

/-- C4, amended: no operation retries a failed request (each request of
`updateCartCount` and `loadCart` is issued at most once per call), and
`loadCart`'s top-level failure is surfaced as a single destructive
toast; but two failures are swallowed without any toast:
`updateCartCount` only logs its request failure to the console, and a
per-item book fetch failing inside `loadCart` silently leaves the item
without its book. -/
theorem error_toast_amended :
    (∀ (u : User) (e : String),
      updateCartCount (some u) (.error e) = ⟨[.getCartItems u.id], none, []⟩) ∧
    (∀ (u : User) (e : String) (bookResult : Nat → Except String Book)
        (enrich : List Book → List Book),
      loadCart (some u) (.error e) bookResult enrich
        = ⟨[.getCartItems u.id], none, [⟨"Error loading cart", true⟩], false⟩) ∧
    (∀ (u : User) (items : List CartItem) (bookResult : Nat → Except String Book)
        (enrich : List Book → List Book),
      (loadCart (some u) (.ok items) bookResult enrich).toasts = [] ∧
      (loadCart (some u) (.ok items) bookResult enrich).calls
        = .getCartItems u.id :: items.map (fun item => .getBook item.bookId)) := by
  refine ⟨fun u e => rfl, fun u e bookResult enrich => rfl, ?_⟩
  intro u items bookResult enrich
  exact ⟨rfl, rfl⟩

/-- A request issued during `loadCart` or `clearCart`: the
`cartAPI.getByUserId` fetch, one `booksAPI.getById` fetch, or one
`cartAPI.delete`. -/
inductive ReqId where
  | cartFetch
  | bookFetch (bookId : Nat)
  | itemDelete (itemId : Nat)
  deriving Repr, DecidableEq

/-- A scheduling event: a request is issued or completes. -/
inductive Ev where
  | issue (r : ReqId)
  | complete (r : ReqId)
  deriving Repr, DecidableEq

/-- The request schedule of `loadCart` (Cart.tsx lines 188-231): the
cart fetch is awaited to completion, then `items.map(async ...)` starts
every book fetch before `await Promise.all` lets any of their
continuations run, so all book fetches are issued before any
completes. -/
def loadCartSchedule (bookIds : List Nat) : List Ev :=
  Ev.issue .cartFetch :: Ev.complete .cartFetch ::
    (bookIds.map (fun b => Ev.issue (.bookFetch b))
      ++ bookIds.map (fun b => Ev.complete (.bookFetch b)))

/-- The request schedule of `clearCart` (Cart.tsx lines 303-330):
`Promise.all(cartItems.map(item => cartAPI.delete(item.id)))` issues
every delete before awaiting any of them. -/
def clearCartSchedule (itemIds : List Nat) : List Ev :=
  itemIds.map (fun i => Ev.issue (.itemDelete i))
    ++ itemIds.map (fun i => Ev.complete (.itemDelete i))

/-- Event `a` occurs strictly before `b` in the schedule `s`. -/
def precedes (s : List Ev) (a b : Ev) : Prop :=
  ∃ i j, i < j ∧ s.get? i = some a ∧ s.get? j = some b

/-- Request `r'` is issued while `r` is still in flight. -/
def overlapping (s : List Ev) (r r' : ReqId) : Prop :=
  ∃ i j k, i < j ∧ j < k ∧ s.get? i = some (.issue r) ∧
    s.get? j = some (.issue r') ∧ s.get? k = some (.complete r)

/-- Each request of the schedule is awaited to completion before the
next one is issued: no request is issued while another is in flight. -/
def sequentialSchedule (s : List Ev) : Prop :=
  ∀ r r' : ReqId, ¬ overlapping s r r'

theorem batch_get_issue {α : Type} (l : List α) (f g : α → Ev) (n : Nat) (b : α)
    (hn : l.get? n = some b) :
    (l.map f ++ l.map g).get? n = some (f b) := by
  rcases List.get?_eq_some.mp hn with ⟨hlt, _⟩
  rw [List.get?_append (by simpa using hlt), List.get?_map, hn]
  rfl

theorem batch_get_complete {α : Type} (l : List α) (f g : α → Ev) (n : Nat) (b : α)
    (hn : l.get? n = some b) :
    (l.map f ++ l.map g).get? (l.length + n) = some (g b) := by
  rw [List.get?_append_right (by simp), List.length_map,
    Nat.add_sub_cancel_left, List.get?_map, hn]
  rfl

/-- C7, counterexample: neither `loadCart` nor `clearCart` awaits its
per-item requests sequentially. In a two-item cart, the second book
fetch (respectively the second delete) is issued while the first is
still in flight. -/
theorem sequential_requests_counterexample :
    ¬ sequentialSchedule (loadCartSchedule [1, 2]) ∧
    ¬ sequentialSchedule (clearCartSchedule [11, 12]) := by
  constructor
  · intro h
    exact h (.bookFetch 1) (.bookFetch 2)
      ⟨2, 3, 4, by decide, by decide, by decide, by decide, by decide⟩
  · intro h
    exact h (.itemDelete 11) (.itemDelete 12)
      ⟨0, 1, 2, by decide, by decide, by decide, by decide, by decide⟩

/-- C7, amended: the phases of `loadCart` are sequential — the cart
fetch completes before any book fetch is issued — but within a phase
the per-item requests are a concurrent batch: every book fetch of
`loadCart` (and every delete of `clearCart`) is issued before any
request of its batch completes. -/
theorem batched_requests_amended :
    (∀ (bookIds : List Nat) (b b' : Nat), b ∈ bookIds → b' ∈ bookIds →
      precedes (loadCartSchedule bookIds)
        (.complete .cartFetch) (.issue (.bookFetch b)) ∧
      precedes (loadCartSchedule bookIds)
        (.issue (.bookFetch b')) (.complete (.bookFetch b))) ∧
    (∀ (itemIds : List Nat) (i i' : Nat), i ∈ itemIds → i' ∈ itemIds →
      precedes (clearCartSchedule itemIds)
        (.issue (.itemDelete i')) (.complete (.itemDelete i))) := by
  constructor
  · intro bookIds b b' hb hb'
    obtain ⟨n, hn⟩ := List.mem_iff_get?.mp hb
    obtain ⟨n', hn'⟩ := List.mem_iff_get?.mp hb'
    rcases List.get?_eq_some.mp hn with ⟨hlt, _⟩
    rcases List.get?_eq_some.mp hn' with ⟨hlt', _⟩
    constructor
    · refine ⟨1, n + 2, by omega, rfl, ?_⟩
      show (loadCartSchedule bookIds).get? (n + 1 + 1)
        = some (.issue (.bookFetch b))
      simp only [loadCartSchedule, List.get?_cons_succ]
      exact batch_get_issue bookIds _ _ n b hn
    · refine ⟨n' + 2, bookIds.length + n + 2, by omega, ?_, ?_⟩
      · show (loadCartSchedule bookIds).get? (n' + 1 + 1)
          = some (.issue (.bookFetch b'))
        simp only [loadCartSchedule, List.get?_cons_succ]
        exact batch_get_issue bookIds _ _ n' b' hn'
      · show (loadCartSchedule bookIds).get? (bookIds.length + n + 1 + 1)
          = some (.complete (.bookFetch b))
        simp only [loadCartSchedule, List.get?_cons_succ]
        exact batch_get_complete bookIds _ _ n b hn
  · intro itemIds i i' hi hi'
    obtain ⟨n, hn⟩ := List.mem_iff_get?.mp hi
    obtain ⟨n', hn'⟩ := List.mem_iff_get?.mp hi'
    rcases List.get?_eq_some.mp hn with ⟨hlt, _⟩
    rcases List.get?_eq_some.mp hn' with ⟨hlt', _⟩
    refine ⟨n', itemIds.length + n, by omega, ?_, ?_⟩
    · exact batch_get_issue itemIds _ _ n' i' hn'
    · exact batch_get_complete itemIds _ _ n i hn

/-- C7, witness for `batched_requests_amended` at a two-item cart. -/
theorem batched_requests_amended_witness :
    precedes (loadCartSchedule [1, 2])
      (.issue (.bookFetch 2)) (.complete (.bookFetch 1)) ∧
    precedes (clearCartSchedule [11, 12])
      (.issue (.itemDelete 12)) (.complete (.itemDelete 11)) :=
  ⟨(batched_requests_amended.1 [1, 2] 1 2 (by decide) (by decide)).2,
   batched_requests_amended.2 [11, 12] 11 12 (by decide) (by decide)⟩

/-- JavaScript truthiness of an optional string operand of `||`:
`undefined` and the empty string are falsy. -/
def jsTruthy (s : Option String) : Bool :=
  match s with
  | some t => !(t == "")
  | none => false

/-- The check `contentType?.includes("application/json")` with optional chaining:
false when the header is absent. -/
def includesJson (contentType : Option String) : Bool :=
  match contentType with
  | some s => decide ( List.IsInfix ("application/json".toList) s.toList)
  | none => false

/-- An HTTP response as observed by `fetchAPI` (src/lib/api.ts):
`parses` is whether the body text is valid JSON, and `errorField` /
`messageField` are the body's `error` and `message` fields when it
parses (absent fields are `none`). -/
structure HttpResponse where
  ok : Bool
  status : Nat
  statusText : String
  contentType : Option String
  contentLength : Option String
  bodyText : String
  parses : Bool
  errorField : Option String
  messageField : Option String
  deriving Repr, DecidableEq

/-- Function `fetchAPI` from src/lib/api.ts lines 40-83. On a non-ok response
the body is parsed (`.catch` substitutes `error: response.statusText`)
and an `Error` is thrown with `error.error || error.message ||
"Request failed: <status>"`. On an ok response: content-length "0" or a
non-JSON content type yields `undefined`; then an empty or
whitespace-only body yields `undefined`; then `JSON.parse` failure
yields `undefined`; otherwise the parsed body (represented by its
text) is returned. -/
def fetchAPI (r : HttpResponse) : Except String (Option String) :=
  if r.ok = false then
    let errError : Option String :=
      if r.parses then r.errorField else some r.statusText
    let errMessage : Option String :=
      if r.parses then r.messageField else none
    let msg : String :=
      if jsTruthy errError then errError.getD ""
      else if jsTruthy errMessage then errMessage.getD ""
      else "Request failed: " ++ toString r.status
    Except.error msg
  else if r.contentLength = some "0" ∨ includesJson r.contentType = false then
    Except.ok none
  else if r.bodyText.trim = "" then
    Except.ok none
  else if r.parses then
    Except.ok (some r.bodyText)
  else
    Except.ok none

instance : DecidableEq (Except String (Option String)) := fun a b =>
  match a, b with
  | .error x, .error y =>
      if h : x = y then isTrue (by rw [h])
      else isFalse (fun hh => h (by injection hh))
  | .error _, .ok _ => isFalse (fun h => Except.noConfusion h)
  | .ok _, .error _ => isFalse (fun h => Except.noConfusion h)
  | .ok x, .ok y =>
      if h : x = y then isTrue (by rw [h])
      else isFalse (fun hh => h (by injection hh))

/-- On an ok response, `fetchAPI` never throws: every branch of the ok
path returns a value (possibly `undefined`). -/
theorem fetchAPI_ok_shape (r : HttpResponse) (h : r.ok = true) :
    ∃ v, fetchAPI r = Except.ok v := by
  by_cases c1 : r.contentLength = some "0" ∨ includesJson r.contentType = false
  · exact ⟨none, by simp [fetchAPI, h, c1]⟩
  · by_cases c2 : r.bodyText.trim = ""
    · exact ⟨none, by simp [fetchAPI, h, c1, c2]⟩
    · by_cases c3 : r.parses = true
      · exact ⟨some r.bodyText, by simp [fetchAPI, h, c1, c2, c3]⟩
      · exact ⟨none, by simp [fetchAPI, h, c1, c2, c3]⟩

/-- A 500 response whose body is not JSON, with a nonempty statusText. -/
def nonJsonErrorResponse : HttpResponse :=
  { ok := false
    status := 500
    statusText := "Internal Server Error"
    contentType := some "text/html"
    contentLength := none
    bodyText := "<html>oops</html>"
    parses := false
    errorField := none
    messageField := none }

/-- C10, counterexample: when the error body fails to parse as JSON,
the thrown message is neither taken from a body field (there is none)
nor the fallback "Request failed: 500" — it is the HTTP statusText,
which the `.catch` handler substitutes as the `error` field. -/
theorem fetchAPI_error_message_counterexample :
    fetchAPI nonJsonErrorResponse = .error "Internal Server Error" ∧
    fetchAPI nonJsonErrorResponse ≠ .error "Request failed: 500" ∧
    nonJsonErrorResponse.errorField = none ∧
    nonJsonErrorResponse.messageField = none := by
  refine ⟨?_, ?_, rfl, rfl⟩ <;> decide

/-- C10, amended: `fetchAPI` throws exactly when the response is not
ok. When the error body parses as JSON the message is the body's
`error` field if truthy, else its `message` field if truthy, else
"Request failed: <status>"; when the body does not parse the message
is the statusText when nonempty, else "Request failed: <status>". For
every ok response whose content length is "0", whose content type is
not JSON, whose body is empty or whitespace, or whose body fails to
parse, `fetchAPI` returns `undefined`; otherwise it returns the parsed
body. -/
theorem fetchAPI_behavior_amended :
    (∀ r : HttpResponse, (∃ e, fetchAPI r = .error e) ↔ r.ok = false) ∧
    (∀ r : HttpResponse, r.ok = false → r.parses = true →
      fetchAPI r = .error
        (if jsTruthy r.errorField then r.errorField.getD ""
         else if jsTruthy r.messageField then r.messageField.getD ""
         else "Request failed: " ++ toString r.status)) ∧
    (∀ r : HttpResponse, r.ok = false → r.parses = false →
      fetchAPI r = .error
        (if r.statusText = "" then "Request failed: " ++ toString r.status
         else r.statusText)) ∧
    (∀ r : HttpResponse, r.ok = true →
      r.contentLength = some "0" ∨ includesJson r.contentType = false →
      fetchAPI r = .ok none) ∧
    (∀ r : HttpResponse, r.ok = true → r.bodyText.trim = "" →
      fetchAPI r = .ok none) ∧
    (∀ r : HttpResponse, r.ok = true → r.parses = false →
      fetchAPI r = .ok none) ∧
    (∀ r : HttpResponse, r.ok = true →
      ¬ (r.contentLength = some "0" ∨ includesJson r.contentType = false) →
      r.bodyText.trim ≠ "" → r.parses = true →
      fetchAPI r = .ok (some r.bodyText)) := by
  refine ⟨?_, ?_, ?_, ?_, ?_, ?_, ?_⟩
  · intro r
    constructor
    · rintro ⟨e, he⟩
      by_contra hok
      have hok' : r.ok = true := by
        cases h : r.ok
        · exact absurd h hok
        · rfl
      obtain ⟨v, hv⟩ := fetchAPI_ok_shape r hok'
      rw [hv] at he
      exact Except.noConfusion he
    · intro hok
      have hthrow : fetchAPI r = Except.error
          (if jsTruthy (if r.parses then r.errorField else some r.statusText) then
            (if r.parses then r.errorField else some r.statusText).getD ""
          else if jsTruthy (if r.parses then r.messageField else none) then
            (if r.parses then r.messageField else none).getD ""
          else "Request failed: " ++ toString r.status) := by
        simp [fetchAPI, hok]
      exact ⟨_, hthrow⟩
  · intro r hok hp
    simp [fetchAPI, hok, hp]
  · intro r hok hp
    by_cases hst : r.statusText = ""
    · simp [fetchAPI, hok, hp, jsTruthy, hst]
    · simp [fetchAPI, hok, hp, jsTruthy, hst]
  · intro r hok hct
    simp [fetchAPI, hok, hct]
  · intro r hok htrim
    by_cases hct : r.contentLength = some "0" ∨ includesJson r.contentType = false
    · simp [fetchAPI, hok, hct]
    · simp [fetchAPI, hok, hct, htrim]
  · intro r hok hp
    by_cases hct : r.contentLength = some "0" ∨ includesJson r.contentType = false
    · simp [fetchAPI, hok, hct]
    · by_cases htrim : r.bodyText.trim = ""
      · simp [fetchAPI, hok, hct, htrim]
      · simp [fetchAPI, hok, hct, htrim, hp]
  · intro r hok hct htrim hp
    simp [fetchAPI, hok, hct, htrim, hp]

/-- C10, witness for `fetchAPI_behavior_amended`: a parsed error body
whose `error` field is set, and an ok empty-body DELETE response. -/
theorem fetchAPI_behavior_amended_witness :
    fetchAPI
        { ok := false, status := 404, statusText := "Not Found"
          contentType := some "application/json", contentLength := none
          bodyText := "x", parses := true
          errorField := some "Book not found", messageField := none }
      = .error "Book not found" ∧
    fetchAPI
        { ok := true, status := 204, statusText := "No Content"
          contentType := none, contentLength := some "0"
          bodyText := "", parses := false
          errorField := none, messageField := none }
      = .ok none := by
  constructor
  · have h := fetchAPI_behavior_amended.2.1
      { ok := false, status := 404, statusText := "Not Found"
        contentType := some "application/json", contentLength := none
        bodyText := "x", parses := true
        errorField := some "Book not found", messageField := none } rfl rfl
    rw [h]
    simp [jsTruthy]
  · exact fetchAPI_behavior_amended.2.2.2.1
      { ok := true, status := 204, statusText := "No Content"
        contentType := none, contentLength := some "0"
        bodyText := "", parses := false
        errorField := none, messageField := none } rfl (Or.inl rfl)

/-- C8, witness for `calculateTotal_sum_loaded` at a one-item cart
whose book failed to load: the total is the (empty) sum over loaded
items and the item contributes 0. -/
theorem calculateTotal_sum_loaded_witness :
    calculateTotal [sampleItemNoBook]
      = ((([sampleItemNoBook] : List CartItemWithBook).filter
            (fun i => i.book.isSome)).map itemContribution).sum ∧
    itemContribution sampleItemNoBook = 0 :=
  ⟨(calculateTotal_sum_loaded [sampleItemNoBook]).2.1,
   (calculateTotal_sum_loaded [sampleItemNoBook]).2.2 sampleItemNoBook
     (by simp) rfl⟩
